import Mathlib

/-!
Verification of the finwatch sidecar bridge core: the JSON-RPC codec
(`src-tauri/src/jsonrpc.rs`), the pending-request tracker
(`src-tauri/src/bridge_pending.rs`), the supervisor state machine and
backoff (`src-tauri/src/sidecar.rs`), and the bridge façade
(`src-tauri/src/bridge.rs`), shallowly embedded as pure Lean functions.

Time (`std::time::Instant`) is modelled as a `Nat` of opaque units
(seconds where constants matter); `Instant::elapsed` is truncated
subtraction, matching the monotone-clock semantics.  mpsc channels are
modelled by giving each `register` call a fresh channel token and
recording every `Sender::send` in an ordered `delivered` log.
-/

namespace Finwatch

/-- Model of `serde_json::Value` restricted to integer-valued numbers
(the protocol fields the bridge inspects — `id`, `code` — are integers;
other payload values are carried opaquely). -/
inductive Json where
  | null
  | bool (b : Bool)
  | num (n : Int)
  | str (s : String)
  | arr (elems : List Json)
  | obj (fields : List (String × Json))

/-- `Value::get(key)` — field lookup on an object, `None` otherwise. -/
def Json.getField : Json → String → Option Json
  | .obj fields, key => fields.lookup key
  | _, _ => none

/-- `Value::as_u64` — the number if it is a non-negative integer fitting u64. -/
def Json.asU64 : Json → Option Nat
  | .num n => if 0 ≤ n ∧ n < 2 ^ 64 then some n.toNat else none
  | _ => none

/-- `Value::as_str`. -/
def Json.asStr : Json → Option String
  | .str s => some s
  | _ => none

/-- `Value::as_i64` restricted to i32 range — deserializing a `code: i32`. -/
def Json.asI32 : Json → Option Int
  | .num n => if -(2 ^ 31) ≤ n ∧ n < 2 ^ 31 then some n else none
  | _ => none

/-- `jsonrpc.rs`: `JsonRpcError { code: i32, message: String, data: Option<Value> }`. -/
structure JsonRpcError where
  code : Int
  message : String
  data : Option Json

/-- `jsonrpc.rs`: `JsonRpcResponse { jsonrpc, id, result, error }`. -/
structure JsonRpcResponse where
  jsonrpc : String
  id : Nat
  result : Option Json
  error : Option JsonRpcError

/-- serde deserialization of an `Option<T>` struct field: both a missing
field and an explicit `null` give `None`. -/
def optionField (j : Json) (key : String) : Option Json :=
  match j.getField key with
  | some Json.null => none
  | some v => some v
  | none => none

/-- serde deserialization of `JsonRpcError` from a JSON value. -/
def parseJsonRpcError (j : Json) : Option JsonRpcError := do
  let code ← (j.getField "code").bind Json.asI32
  let message ← (j.getField "message").bind Json.asStr
  pure { code := code, message := message, data := optionField j "data" }

/-- serde deserialization of `JsonRpcResponse` from a JSON value
(`serde_json::from_value::<JsonRpcResponse>`): `jsonrpc` and `id` are
required, `result`/`error` optional, unknown fields ignored. -/
def parseJsonRpcResponse (j : Json) : Option JsonRpcResponse := do
  let jsonrpc ← (j.getField "jsonrpc").bind Json.asStr
  let id ← (j.getField "id").bind Json.asU64
  let error ← match j.getField "error" with
    | none => pure none
    | some Json.null => pure none
    | some e => (parseJsonRpcError e).map some
  pure { jsonrpc := jsonrpc, id := id, result := optionField j "result", error := error }

/-- serde serialization of a `JsonRpcRequest` (struct field order;
`params` skipped when `None` per `skip_serializing_if`).  This is the
JSON object on the single line produced by `JsonRpcRequest::to_line`. -/
def requestJson (id : Nat) (method : String) (params : Option Json) : Json :=
  Json.obj
    ([("jsonrpc", Json.str "2.0"), ("id", Json.num (id : Int)), ("method", Json.str method)] ++
      (match params with
       | some p => [("params", p)]
       | none => []))

/-! ## Pending request tracker (`bridge_pending.rs`) -/

/-- `bridge_pending.rs`: `PendingRequest { sender, deadline }`.  The
sender is modelled by its channel token. -/
structure PendingRequest where
  chan : Nat
  deadline : Nat
deriving DecidableEq

/-- The result type travelling on a response channel:
`Result<JsonRpcResponse, String>`. -/
abbrev DeliveredMsg := Except String JsonRpcResponse

/-- State of a `PendingRequestTracker` plus the channels it has handed
out: `pending` is the `HashMap<u64, PendingRequest>` (association list
with unique keys), `nextChan` the next fresh channel token, and
`delivered` the ordered log of every `send` on any handed-out channel. -/
structure TrackerState where
  pending : List (Nat × PendingRequest)
  nextChan : Nat
  delivered : List (Nat × DeliveredMsg)

/-- The messages sent so far on channel `c`, in order. -/
def TrackerState.deliveredTo (s : TrackerState) (c : Nat) : List DeliveredMsg :=
  (s.delivered.filter (fun d => d.1 == c)).map (fun d => d.2)

/-- `PendingRequestTracker::register`: create a fresh channel, insert
`(id, {sender, deadline: now + timeout})` (HashMap insert replaces any
existing entry for `id`), return the receiver (its channel token). -/
def TrackerState.register (s : TrackerState) (id timeout now : Nat) :
    Nat × TrackerState :=
  let c := s.nextChan
  (c, { pending := (id, ⟨c, now + timeout⟩) :: s.pending.filter (fun p => p.1 != id)
        nextChan := c + 1
        delivered := s.delivered })

/-- `PendingRequestTracker::resolve`: remove the entry for `id` if
present and send `Ok(response)` on its channel, returning whether it
was found. -/
def TrackerState.resolve (s : TrackerState) (id : Nat) (response : JsonRpcResponse) :
    Bool × TrackerState :=
  match s.pending.lookup id with
  | some entry =>
      (true, { pending := s.pending.filter (fun p => p.1 != id)
               nextChan := s.nextChan
               delivered := s.delivered ++ [(entry.chan, Except.ok response)] })
  | none => (false, s)

/-- The timeout error string: `format!("JSON-RPC request {} timed out", id)`. -/
def timeoutMsg (id : Nat) : String :=
  "JSON-RPC request " ++ toString id ++ " timed out"

/-- `PendingRequestTracker::check_timeouts`: remove every entry whose
deadline has passed (`now >= deadline`) and send it a timeout error. -/
def TrackerState.check_timeouts (s : TrackerState) (now : Nat) : TrackerState :=
  { pending := s.pending.filter (fun p => decide (now < p.2.deadline))
    nextChan := s.nextChan
    delivered := s.delivered ++
      (s.pending.filter (fun p => decide (p.2.deadline ≤ now))).map
        (fun p => (p.2.chan, Except.error (timeoutMsg p.1))) }

/-- `PendingRequestTracker::fail_all`: send `Err(reason)` to every
entry and empty the table. -/
def TrackerState.fail_all (s : TrackerState) (reason : String) : TrackerState :=
  { pending := []
    nextChan := s.nextChan
    delivered := s.delivered ++
      s.pending.map (fun p => (p.2.chan, Except.error reason)) }

/-- `PendingRequestTracker::len`. -/
def TrackerState.len (s : TrackerState) : Nat := s.pending.length

/-- Well-formedness maintained by every tracker history: ids unique in
the table, channel tokens unique and below the freshness bound, and the
delivery log only mentions handed-out tokens. -/
def TrackerState.WF (s : TrackerState) : Prop :=
  (s.pending.map (fun p => p.1)).Nodup ∧
  (s.pending.map (fun p => p.2.chan)).Nodup ∧
  (∀ p ∈ s.pending, p.2.chan < s.nextChan) ∧
  (∀ d ∈ s.delivered, d.1 < s.nextChan)

/-- One call against the tracker (for trace reasoning). -/
inductive TrackerOp where
  | register (id timeout now : Nat)
  | resolve (id : Nat) (response : JsonRpcResponse)
  | check_timeouts (now : Nat)
  | fail_all (reason : String)

/-- State after one tracker call. -/
def TrackerState.apply (s : TrackerState) : TrackerOp → TrackerState
  | .register id timeout now => (s.register id timeout now).2
  | .resolve id r => (s.resolve id r).2
  | .check_timeouts now => s.check_timeouts now
  | .fail_all reason => s.fail_all reason

/-- State after a sequence of tracker calls. -/
def TrackerState.applyAll (s : TrackerState) : List TrackerOp → TrackerState
  | [] => s
  | op :: ops => (s.apply op).applyAll ops

/-! ## Stdout reader classification (`bridge.rs`, `spawn_reader_threads`) -/

/-- What the stdout reader loop does with one non-empty line. -/
inductive ReadAction where
  | resolveResponse (id : Nat) (response : JsonRpcResponse)
  | routeNotification (method : String) (params : Option Json)
  | discardMalformed

/-- The stdout loop body for one trimmed non-empty line; the argument is
the outcome of `serde_json::from_str::<Value>` (`none` = not JSON).
Faithful to `bridge.rs` lines 91–112: try `get("id").as_u64()` first;
on success, parse a `JsonRpcResponse` and call `pending.resolve`
(a parse failure is logged and dropped); otherwise, if
`get("method").as_str()` succeeds, route the notification with
`get("params")`; otherwise log and drop. -/
def classifyLine (parsed : Option Json) : ReadAction :=
  match parsed with
  | none => ReadAction.discardMalformed
  | some j =>
    match (j.getField "id").bind Json.asU64 with
    | some id =>
      match parseJsonRpcResponse j with
      | some response => ReadAction.resolveResponse id response
      | none => ReadAction.discardMalformed
    | none =>
      match (j.getField "method").bind Json.asStr with
      | some method => ReadAction.routeNotification method (j.getField "params")
      | none => ReadAction.discardMalformed

/-- Effect of one read action on the tracker: only the response branch
touches it (`pending.resolve(id, response)`). -/
def applyReadAction (a : ReadAction) (t : TrackerState) : TrackerState :=
  match a with
  | ReadAction.resolveResponse id response => (t.resolve id response).2
  | _ => t

/-! ## Supervisor state machine (`sidecar.rs`) -/

/-- `sidecar.rs`: `enum SidecarState`. -/
inductive SidecarState where
  | Stopped
  | Starting
  | Running
  | Crashed (restart_count : Nat)
deriving DecidableEq

/-- `SidecarSupervisor::restart_count`: the crash counter, `0` when not
crashed. -/
def SidecarState.restart_count : SidecarState → Nat
  | .Crashed n => n
  | _ => 0

/-- `MAX_BACKOFF` (seconds). -/
def MAX_BACKOFF : Nat := 30

/-- `SidecarSupervisor::backoff_duration`, in whole seconds:
`1` when the counter is `0`, else
`min(1u64.checked_shl(count.min(31)), MAX_BACKOFF)` — the shift is
by at most 31 so it never overflows u64 and equals `2 ^ min(count, 31)`. -/
def backoff_duration (s : SidecarState) : Nat :=
  let count := s.restart_count
  if count = 0 then 1
  else min (2 ^ min count 31) MAX_BACKOFF

/-- `SidecarSupervisor::record_crash` on the state value. -/
def SidecarState.record_crash : SidecarState → SidecarState
  | .Crashed n => .Crashed (n + 1)
  | _ => .Crashed 1

/-- `SidecarSupervisor::should_restart`. -/
def should_restart (s : SidecarState) (max_restarts : Nat) : Bool :=
  match s with
  | .Crashed n => decide (n < max_restarts)
  | _ => false

/-! ## Bridge façade (`bridge.rs`) -/

/-- A `Mutex<α>` together with its poison flag.
`lock().unwrap_or_else(|e| e.into_inner())` recovers the last-known
value whether or not the mutex is poisoned; `lock().map_err(...)`
errors out when it is. -/
structure MutexCell (α : Type) where
  value : α
  poisoned : Bool

/-- `lock().unwrap_or_else(|e| e.into_inner())`: always the value. -/
def MutexCell.lockRecover {α : Type} (m : MutexCell α) : α := m.value

/-- The `Display` text of `std::sync::PoisonError`. -/
def poisonMsg : String := "poisoned lock: another task failed inside"

/-- `REQUEST_TIMEOUT` (seconds). -/
def REQUEST_TIMEOUT : Nat := 31

/-- `SidecarBridge` shared state.  `child` and `stdinWriter` hold
whether the respective `Option` handle is present; `stdinWrites` is the
ordered log of JSON objects written (one per line) to the worker's
stdin; `nextReqId` models the `REQUEST_ID` atomic counter. -/
structure BridgeState where
  supState : MutexCell SidecarState
  child : MutexCell Bool
  stdinWriter : MutexCell Bool
  stdinWrites : List Json
  pendingT : TrackerState
  lastPong : MutexCell (Option Nat)
  watchdogShutdown : MutexCell Bool
  nextReqId : Nat

/-- `SidecarBridge::is_running`: `supervisor.state() == Running`, the
state read recovering from poisoning. -/
def BridgeState.is_running (b : BridgeState) : Bool :=
  decide (b.supState.lockRecover = SidecarState.Running)

/-- `SidecarBridge::record_pong`: store `Some(Instant::now())`
(recovering the lock). -/
def BridgeState.record_pong (b : BridgeState) (now : Nat) : BridgeState :=
  { b with lastPong := { value := some now, poisoned := b.lastPong.poisoned } }

/-- `SidecarBridge::is_healthy`: `false` unless running; otherwise
`true` with no pong recorded, else `elapsed < max_silence` (strict). -/
def BridgeState.is_healthy (b : BridgeState) (now max_silence : Nat) : Bool :=
  if b.is_running = false then false
  else
    match b.lastPong.lockRecover with
    | some last => decide (now - last < max_silence)
    | none => true

/-- `SidecarBridge::send_request`.  The blocking
`rx.recv_timeout(REQUEST_TIMEOUT)` outcome is an oracle argument
(`Except.error e` = recv failure/timeout, `Except.ok inner` = the
message sent by the resolver).  Stdin write syscalls are modelled as
succeeding. -/
def BridgeState.send_request (b : BridgeState) (method : String) (params : Option Json)
    (now : Nat) (recv : Except String DeliveredMsg) :
    Except String JsonRpcResponse × BridgeState :=
  if b.is_running = false then (Except.error "Sidecar not running", b)
  else
    let id := b.nextReqId
    let line := requestJson id method params
    let b1 := { b with nextReqId := id + 1 }
    let b2 := { b1 with pendingT := (b1.pendingT.register id REQUEST_TIMEOUT now).2 }
    if b2.stdinWriter.poisoned then
      (Except.error ("Failed to acquire stdin lock: " ++ poisonMsg), b2)
    else if b2.stdinWriter.value then
      let b3 := { b2 with stdinWrites := b2.stdinWrites ++ [line] }
      match recv with
      | Except.ok inner => (inner, b3)
      | Except.error e =>
          (Except.error ("Request " ++ toString id ++ " recv failed: " ++ e), b3)
    else (Except.error "Stdin not available", b2)

/-- `SidecarBridge::send_notification`: same running check and stdin
write, no registration and no wait. -/
def BridgeState.send_notification (b : BridgeState) (method : String)
    (params : Option Json) : Except String Unit × BridgeState :=
  if b.is_running = false then (Except.error "Sidecar not running", b)
  else
    let id := b.nextReqId
    let line := requestJson id method params
    let b1 := { b with nextReqId := id + 1 }
    if b1.stdinWriter.poisoned then
      (Except.error ("Failed to acquire stdin lock: " ++ poisonMsg), b1)
    else if b1.stdinWriter.value then
      (Except.ok (), { b1 with stdinWrites := b1.stdinWrites ++ [line] })
    else (Except.error "Stdin not available", b1)

/-- `SidecarBridge::kill`: take and fire the watchdog shutdown sender
(recovering its lock), fail all pending requests, then acquire the
child lock with `map_err` (surfacing poison), kill/clear the child,
acquire the stdin lock with `map_err`, clear it, and record `Stopped`. -/
def BridgeState.kill (b : BridgeState) : Except String Unit × BridgeState :=
  let b1 := { b with
    watchdogShutdown := { value := false, poisoned := b.watchdogShutdown.poisoned } }
  let b2 := { b1 with pendingT := b1.pendingT.fail_all "Sidecar process killed" }
  if b2.child.poisoned then
    (Except.error ("Failed to acquire child lock: " ++ poisonMsg), b2)
  else
    let b3 := { b2 with child := { value := false, poisoned := false } }
    if b3.stdinWriter.poisoned then
      (Except.error ("Failed to acquire stdin lock: " ++ poisonMsg), b3)
    else
      (Except.ok (),
        { b3 with
          stdinWriter := { value := false, poisoned := false }
          supState := { value := SidecarState.Stopped, poisoned := b3.supState.poisoned } })

/-! ## Association-list and delivery-log lemmas -/

theorem lookup_mem {β : Type} {l : List (Nat × β)} {k : Nat} {v : β}
    (h : l.lookup k = some v) : (k, v) ∈ l := by
  induction l with
  | nil => simp [List.lookup] at h
  | cons p l ih =>
    obtain ⟨k2, v2⟩ := p
    by_cases hk : k = k2
    · subst hk
      simp [List.lookup] at h
      subst h
      exact List.mem_cons_self _ _
    · rw [List.lookup] at h
      simp only [beq_eq_false_iff_ne.mpr hk] at h
      exact List.mem_cons_of_mem _ (ih h)

theorem mem_lookup {β : Type} {l : List (Nat × β)} {k : Nat} {v : β}
    (hnd : (l.map (fun p => p.1)).Nodup) (h : (k, v) ∈ l) :
    l.lookup k = some v := by
  induction l with
  | nil => simp at h
  | cons p l ih =>
    obtain ⟨k2, v2⟩ := p
    simp only [List.map_cons, List.nodup_cons] at hnd
    rcases List.mem_cons.mp h with h1 | h1
    · obtain ⟨hk, hv⟩ := Prod.mk.injEq .. ▸ h1
      subst hk; subst hv
      simp [List.lookup]
    · have hne : k ≠ k2 := by
        intro he
        subst he
        exact hnd.1 (List.mem_map.mpr ⟨(k, v), h1, rfl⟩)
      rw [List.lookup]
      simp only [beq_eq_false_iff_ne.mpr hne]
      exact ih hnd.2 h1

theorem lookup_filter_self {β : Type} (l : List (Nat × β)) (k : Nat) :
    (l.filter (fun p => p.1 != k)).lookup k = none := by
  induction l with
  | nil => simp [List.lookup]
  | cons p l ih =>
    obtain ⟨k2, v2⟩ := p
    by_cases hk : k2 = k
    · subst hk
      simpa [List.filter] using ih
    · rw [List.filter_cons]
      simp only [bne_iff_ne, ne_eq, hk, not_false_eq_true, decide_True, if_true]
      rw [List.lookup]
      simp only [beq_eq_false_iff_ne.mpr (Ne.symm hk)]
      exact ih

theorem filter_fst_eq_nil {β : Type} {l : List (Nat × β)} {c : Nat}
    (h : ∀ d ∈ l, d.1 ≠ c) : l.filter (fun d => d.1 == c) = [] := by
  induction l with
  | nil => rfl
  | cons p l ih =>
    rw [List.filter_cons]
    simp only [beq_eq_false_iff_ne.mpr (h p (List.mem_cons_self _ _)), if_false]
    exact ih fun d hd => h d (List.mem_cons_of_mem _ hd)

theorem filter_map_single {α β : Type} (f : α → Nat) (g : α → β) {l : List α}
    (hnd : (l.map f).Nodup) {a : α} (ha : a ∈ l) :
    (l.map (fun x => (f x, g x))).filter (fun q => q.1 == f a) = [(f a, g a)] := by
  induction l with
  | nil => simp at ha
  | cons x l ih =>
    simp only [List.map_cons, List.nodup_cons] at hnd
    rcases List.mem_cons.mp ha with h1 | h1
    · subst h1
      rw [List.map_cons, List.filter_cons]
      simp only [beq_self_eq_true, if_true]
      have : ∀ q ∈ l.map (fun x => (f x, g x)), q.1 ≠ f a := by
        intro q hq
        obtain ⟨y, hy, rfl⟩ := List.mem_map.mp hq
        intro he
        exact hnd.1 (he ▸ List.mem_map.mpr ⟨y, hy, rfl⟩)
      rw [filter_fst_eq_nil this]
    · have hne : f x ≠ f a := by
        intro he
        exact hnd.1 (he ▸ List.mem_map.mpr ⟨a, h1, rfl⟩)
      rw [List.map_cons, List.filter_cons]
      simp only [beq_eq_false_iff_ne.mpr hne, if_false]
      exact ih hnd.2 h1

theorem register_WF {s : TrackerState} (h : s.WF) (id t now : Nat) :
    ((s.register id t now).2).WF := by
  obtain ⟨hk, hc, hlt, hd⟩ := h
  have hsubl : (s.pending.filter (fun p => p.1 != id)).Sublist s.pending :=
    List.filter_sublist s.pending
  refine ⟨?_, ?_, ?_, ?_⟩
  · rw [TrackerState.register]
    simp only [List.map_cons]
    refine List.Nodup.cons ?_ (hk.sublist (hsubl.map _))
    intro hmem
    obtain ⟨p, hp, hfst⟩ := List.mem_map.mp hmem
    have := List.of_mem_filter hp
    rw [hfst] at this
    simp at this
  · rw [TrackerState.register]
    simp only [List.map_cons]
    refine List.Nodup.cons ?_ (hc.sublist (hsubl.map _))
    intro hmem
    obtain ⟨p, hp, hfst⟩ := List.mem_map.mp hmem
    have hlt' := hlt p (List.mem_of_mem_filter hp)
    omega
  · intro p hp
    rw [TrackerState.register] at hp
    rcases List.mem_cons.mp hp with h1 | h1
    · subst h1; simp [TrackerState.register]
    · have := hlt p (List.mem_of_mem_filter h1)
      simp only [TrackerState.register]
      omega
  · intro d hd'
    have := hd d hd'
    simp only [TrackerState.register]
    omega

theorem chan_dead_apply {s : TrackerState} {c : Nat}
    (hck : c < s.nextChan) (hcp : ∀ p ∈ s.pending, p.2.chan ≠ c) (op : TrackerOp) :
    (s.apply op).deliveredTo c = s.deliveredTo c ∧
    c < (s.apply op).nextChan ∧
    (∀ p ∈ (s.apply op).pending, p.2.chan ≠ c) := by
  cases op with
  | register id t now =>
      refine ⟨rfl, by simp only [TrackerState.apply, TrackerState.register]; omega, ?_⟩
      intro p hp
      simp only [TrackerState.apply, TrackerState.register] at hp
      rcases List.mem_cons.mp hp with h1 | h1
      · subst h1; simp only; omega
      · exact hcp p (List.mem_of_mem_filter h1)
  | resolve id r =>
      simp only [TrackerState.apply, TrackerState.resolve]
      cases hl : s.pending.lookup id with
      | none => exact ⟨rfl, hck, hcp⟩
      | some entry =>
          have hne : entry.chan ≠ c := hcp (id, entry) (lookup_mem hl)
          refine ⟨?_, hck, ?_⟩
          · simp only [TrackerState.deliveredTo, List.filter_append, List.map_append]
            rw [List.filter_cons]
            simp [beq_eq_false_iff_ne.mpr hne]
          · intro p hp
            exact hcp p (List.mem_of_mem_filter hp)
  | check_timeouts now =>
      have hnil : ∀ q ∈ (s.pending.filter (fun p => decide (p.2.deadline ≤ now))).map
          (fun p => (p.2.chan, (Except.error (timeoutMsg p.1) : DeliveredMsg))),
          q.1 ≠ c := by
        intro q hq
        obtain ⟨p, hp, rfl⟩ := List.mem_map.mp hq
        exact hcp p (List.mem_of_mem_filter hp)
      refine ⟨?_, hck, ?_⟩
      · simp only [TrackerState.apply, TrackerState.check_timeouts,
          TrackerState.deliveredTo, List.filter_append, List.map_append]
        rw [filter_fst_eq_nil hnil]
        simp
      · intro p hp
        simp only [TrackerState.apply, TrackerState.check_timeouts] at hp
        exact hcp p (List.mem_of_mem_filter hp)
  | fail_all reason =>
      have hnil : ∀ q ∈ s.pending.map
          (fun p => (p.2.chan, (Except.error reason : DeliveredMsg))), q.1 ≠ c := by
        intro q hq
        obtain ⟨p, hp, rfl⟩ := List.mem_map.mp hq
        exact hcp p hp
      refine ⟨?_, hck, ?_⟩
      · simp only [TrackerState.apply, TrackerState.fail_all,
          TrackerState.deliveredTo, List.filter_append, List.map_append]
        rw [filter_fst_eq_nil hnil]
        simp
      · intro p hp
        simp [TrackerState.apply, TrackerState.fail_all] at hp

theorem chan_dead_applyAll {s : TrackerState} {c : Nat}
    (hck : c < s.nextChan) (hcp : ∀ p ∈ s.pending, p.2.chan ≠ c)
    (ops : List TrackerOp) :
    (s.applyAll ops).deliveredTo c = s.deliveredTo c := by
  induction ops generalizing s with
  | nil => rfl
  | cons op ops ih =>
      obtain ⟨h1, h2, h3⟩ := chan_dead_apply hck hcp op
      rw [TrackerState.applyAll, ih h2 h3, h1]

/-- Concrete response used by the executable witnesses (the shape of
`make_response` in the `bridge_pending.rs` tests). -/
def okResponse (id : Nat) : JsonRpcResponse :=
  { jsonrpc := "2.0", id := id, result := some (Json.obj [("status", Json.str "ok")])
    error := none }

/-! ## Claim theorems -/

/-- Claim C1: after `register(id, timeout)`, the first `resolve(id, r)`
removes the entry, delivers exactly `r` to the receiver returned by
`register`, and returns `true`; a subsequent `resolve` for the same id,
and a `resolve` for an id that was never registered, return `false`,
deliver nothing and leave the tracker unchanged. -/
theorem register_resolve_exactly_once (s : TrackerState) (hWF : s.WF)
    (id t now : Nat) (r r2 r3 : JsonRpcResponse) (id2 : Nat) :
    ((s.register id t now).2.resolve id r).1 = true ∧
    (((s.register id t now).2.resolve id r).2).pending.lookup id = none ∧
    (((s.register id t now).2.resolve id r).2).deliveredTo (s.register id t now).1
      = [Except.ok r] ∧
    (((s.register id t now).2.resolve id r).2).resolve id r2
      = (false, ((s.register id t now).2.resolve id r).2) ∧
    (s.pending.lookup id2 = none → s.resolve id2 r3 = (false, s)) := by
  obtain ⟨hk, hc, hlt, hd⟩ := hWF
  have hfst : (s.register id t now).1 = s.nextChan := rfl
  have hpend : (s.register id t now).2.pending
      = (id, ⟨s.nextChan, now + t⟩) :: s.pending.filter (fun p => p.1 != id) := rfl
  have hdel : (s.register id t now).2.delivered = s.delivered := rfl
  have hlook : (s.register id t now).2.pending.lookup id
      = some ⟨s.nextChan, now + t⟩ := by
    rw [hpend]
    simp [List.lookup]
  have hres : (s.register id t now).2.resolve id r
      = (true,
        { pending := (s.register id t now).2.pending.filter (fun p => p.1 != id)
          nextChan := (s.register id t now).2.nextChan
          delivered := (s.register id t now).2.delivered ++
            [(s.nextChan, Except.ok r)] }) := by
    simp only [TrackerState.resolve, hlook]
  refine ⟨by rw [hres], ?_, ?_, ?_, ?_⟩
  · rw [hres]
    show ((s.register id t now).2.pending.filter (fun p => p.1 != id)).lookup id = none
    exact lookup_filter_self _ id
  · rw [hres, hfst]
    show (List.filter (fun d => d.1 == s.nextChan)
        ((s.register id t now).2.delivered ++ [(s.nextChan, Except.ok r)])).map
          (fun d => d.2) = [Except.ok r]
    rw [hdel, List.filter_append]
    rw [filter_fst_eq_nil (fun d hd' => Nat.ne_of_lt (hd d hd'))]
    simp
  · rw [hres]
    have hnone : ((s.register id t now).2.pending.filter
        (fun p => p.1 != id)).lookup id = none := lookup_filter_self _ id
    simp only [TrackerState.resolve, hnone]
  · intro hnone
    simp only [TrackerState.resolve, hnone]

/-- Claim C1 witness: on the empty tracker, register id 1 then resolve
it with a concrete response. -/
theorem register_resolve_exactly_once_witness :
    (((⟨[], 0, []⟩ : TrackerState).register 1 31 0).2.resolve 1 (okResponse 1)).1 = true ∧
    ((((⟨[], 0, []⟩ : TrackerState).register 1 31 0).2.resolve 1
        (okResponse 1)).2).pending.lookup 1 = none ∧
    ((((⟨[], 0, []⟩ : TrackerState).register 1 31 0).2.resolve 1
        (okResponse 1)).2).deliveredTo ((⟨[], 0, []⟩ : TrackerState).register 1 31 0).1
      = [Except.ok (okResponse 1)] ∧
    ((((⟨[], 0, []⟩ : TrackerState).register 1 31 0).2.resolve 1
        (okResponse 1)).2).resolve 1 (okResponse 1)
      = (false, (((⟨[], 0, []⟩ : TrackerState).register 1 31 0).2.resolve 1
          (okResponse 1)).2) ∧
    ((⟨[], 0, []⟩ : TrackerState).pending.lookup 999 = none →
      (⟨[], 0, []⟩ : TrackerState).resolve 999 (okResponse 999)
        = (false, (⟨[], 0, []⟩ : TrackerState))) :=
  register_resolve_exactly_once ⟨[], 0, []⟩
    (by refine ⟨by simp, by simp, by simp, by simp⟩) 1 31 0
    (okResponse 1) (okResponse 1) (okResponse 999) 999

theorem mem_unique_of_keys_nodup {β : Type} {l : List (Nat × β)}
    (hnd : (l.map (fun p => p.1)).Nodup) {k : Nat} {v w : β}
    (hv : (k, v) ∈ l) (hw : (k, w) ∈ l) : v = w := by
  have h1 := mem_lookup hnd hv
  have h2 := mem_lookup hnd hw
  rw [h1] at h2
  exact Option.some.inj h2

/-- Claim C8: `check_timeouts` removes exactly the entries whose
deadline has passed (`now ≥ deadline`), sending each removed entry's
receiver a timeout error that names that entry's id; an entry whose
deadline has not passed stays in the table untouched and receives
nothing. -/
theorem check_timeouts_expires_exactly_due (s : TrackerState) (hWF : s.WF)
    (now id : Nat) (e : PendingRequest) (hmem : (id, e) ∈ s.pending) :
    (e.deadline ≤ now →
      (s.check_timeouts now).pending.lookup id = none ∧
      (s.check_timeouts now).deliveredTo e.chan
        = s.deliveredTo e.chan ++ [Except.error (timeoutMsg id)]) ∧
    (now < e.deadline →
      (s.check_timeouts now).pending.lookup id = some e ∧
      (s.check_timeouts now).deliveredTo e.chan = s.deliveredTo e.chan) := by
  obtain ⟨hk, hc, hlt, hd⟩ := hWF
  have hpend : (s.check_timeouts now).pending
      = s.pending.filter (fun p => decide (now < p.2.deadline)) := rfl
  have hdel : (s.check_timeouts now).delivered
      = s.delivered ++ (s.pending.filter (fun p => decide (p.2.deadline ≤ now))).map
          (fun p => (p.2.chan, Except.error (timeoutMsg p.1))) := rfl
  constructor
  · intro hle
    constructor
    · rw [hpend]
      cases hl : (s.pending.filter (fun p => decide (now < p.2.deadline))).lookup id with
      | none => rfl
      | some v =>
          have hv := List.mem_of_mem_filter (lookup_mem hl)
          have hkeep := List.of_mem_filter (lookup_mem hl)
          have hve : v = e := mem_unique_of_keys_nodup hk hv hmem
          subst hve
          simp only [decide_eq_true_eq] at hkeep
          omega
    · have hnd' : ((s.pending.filter (fun p => decide (p.2.deadline ≤ now))).map
          (fun p => p.2.chan)).Nodup :=
        hc.sublist ((List.filter_sublist _).map _)
      have hmem' : (id, e) ∈ s.pending.filter (fun p => decide (p.2.deadline ≤ now)) :=
        List.mem_filter.mpr ⟨hmem, by simpa using hle⟩
      have hsingle := filter_map_single (fun p => p.2.chan)
        (fun p => (Except.error (timeoutMsg p.1) : DeliveredMsg)) hnd' hmem'
      simp only at hsingle
      show (List.filter (fun d => d.1 == e.chan) (s.check_timeouts now).delivered).map
          (fun d => d.2) = _
      rw [hdel, List.filter_append, List.map_append, hsingle]
      rfl
  · intro hgt
    constructor
    · rw [hpend]
      have hnd' : ((s.pending.filter (fun p => decide (now < p.2.deadline))).map
          (fun p => p.1)).Nodup := hk.sublist ((List.filter_sublist _).map _)
      exact mem_lookup hnd' (List.mem_filter.mpr ⟨hmem, by simpa using hgt⟩)
    · have hnil : ∀ q ∈ (s.pending.filter (fun p => decide (p.2.deadline ≤ now))).map
          (fun p => (p.2.chan, (Except.error (timeoutMsg p.1) : DeliveredMsg))),
          q.1 ≠ e.chan := by
        intro q hq
        obtain ⟨p, hp, rfl⟩ := List.mem_map.mp hq
        have hpm := List.mem_of_mem_filter hp
        have hpe := List.of_mem_filter hp
        intro hcheq
        have : p = (id, e) := List.inj_on_of_nodup_map hc hpm hmem hcheq
        subst this
        simp only [decide_eq_true_eq] at hpe
        omega
      show (List.filter (fun d => d.1 == e.chan) (s.check_timeouts now).delivered).map
          (fun d => d.2) = _
      rw [hdel, List.filter_append, List.map_append, filter_fst_eq_nil hnil]
      simp [TrackerState.deliveredTo]

/-- Claim C8 witness: two entries, one due (deadline 10 at time 10) and
one not due (deadline 50): the sweep removes and times out the first
and leaves the second untouched. -/
theorem check_timeouts_expires_exactly_due_witness :
    ((10 : Nat) ≤ 10 →
      ((⟨[(3, ⟨0, 10⟩), (4, ⟨1, 50⟩)], 2, []⟩ : TrackerState).check_timeouts 10).pending.lookup 3
        = none ∧
      ((⟨[(3, ⟨0, 10⟩), (4, ⟨1, 50⟩)], 2, []⟩ : TrackerState).check_timeouts 10).deliveredTo 0
        = (⟨[(3, ⟨0, 10⟩), (4, ⟨1, 50⟩)], 2, []⟩ : TrackerState).deliveredTo 0 ++
            [Except.error (timeoutMsg 3)]) ∧
    ((10 : Nat) < 10 →
      ((⟨[(3, ⟨0, 10⟩), (4, ⟨1, 50⟩)], 2, []⟩ : TrackerState).check_timeouts 10).pending.lookup 3
        = some ⟨0, 10⟩ ∧
      ((⟨[(3, ⟨0, 10⟩), (4, ⟨1, 50⟩)], 2, []⟩ : TrackerState).check_timeouts 10).deliveredTo 0
        = (⟨[(3, ⟨0, 10⟩), (4, ⟨1, 50⟩)], 2, []⟩ : TrackerState).deliveredTo 0) :=
  check_timeouts_expires_exactly_due ⟨[(3, ⟨0, 10⟩), (4, ⟨1, 50⟩)], 2, []⟩
    (by refine ⟨by simp, by simp, by decide, by simp⟩) 10 3 ⟨0, 10⟩ (by simp)

/-- Claim C9: `fail_all(reason)` sends `Err(reason)` to every
currently-registered receiver, regardless of its deadline, and
afterwards the table is empty (`len() = 0`). -/
theorem fail_all_fails_every_receiver (s : TrackerState) (hWF : s.WF)
    (reason : String) (id : Nat) (e : PendingRequest) (hmem : (id, e) ∈ s.pending) :
    (s.fail_all reason).len = 0 ∧
    (s.fail_all reason).deliveredTo e.chan
      = s.deliveredTo e.chan ++ [Except.error reason] := by
  obtain ⟨hk, hc, hlt, hd⟩ := hWF
  refine ⟨rfl, ?_⟩
  have hsingle := filter_map_single (fun p : Nat × PendingRequest => p.2.chan)
    (fun _ => (Except.error reason : DeliveredMsg)) hc hmem
  simp only at hsingle
  show (List.filter (fun d => d.1 == e.chan) (s.fail_all reason).delivered).map
      (fun d => d.2) = _
  have hdel : (s.fail_all reason).delivered
      = s.delivered ++ s.pending.map (fun p => (p.2.chan, Except.error reason)) := rfl
  rw [hdel, List.filter_append, List.map_append, hsingle]
  rfl

/-- Claim C9 witness: two registered entries with distant deadlines are
both failed with the reason, and the table is emptied. -/
theorem fail_all_fails_every_receiver_witness :
    ((⟨[(1, ⟨0, 1000⟩), (2, ⟨1, 31⟩)], 2, []⟩ : TrackerState).fail_all "sidecar killed").len
      = 0 ∧
    ((⟨[(1, ⟨0, 1000⟩), (2, ⟨1, 31⟩)], 2, []⟩ : TrackerState).fail_all
        "sidecar killed").deliveredTo 0
      = (⟨[(1, ⟨0, 1000⟩), (2, ⟨1, 31⟩)], 2, []⟩ : TrackerState).deliveredTo 0 ++
          [Except.error "sidecar killed"] :=
  fail_all_fails_every_receiver ⟨[(1, ⟨0, 1000⟩), (2, ⟨1, 31⟩)], 2, []⟩
    (by refine ⟨by simp, by simp, by decide, by simp⟩)
    "sidecar killed" 1 ⟨0, 1000⟩ (by simp)

/-- Claim C10: a second `register` with an id already in the table
silently replaces the entry: ids stay unique, the table maps the id to
the second receiver's fresh channel with the new deadline, and the
first receiver is never sent any message — not by the re-registration
and not by any later tracker call (it can only observe its channel
being disconnected). -/
theorem register_overwrites_silently (s : TrackerState) (hWF : s.WF)
    (id t1 t2 now1 now2 : Nat) (ops : List TrackerOp) :
    ((((s.register id t1 now1).2.register id t2 now2).2.pending.map
        (fun p => p.1)).Nodup) ∧
    ((s.register id t1 now1).2.register id t2 now2).1 ≠ (s.register id t1 now1).1 ∧
    (((s.register id t1 now1).2.register id t2 now2).2.pending.lookup id
      = some ⟨((s.register id t1 now1).2.register id t2 now2).1, now2 + t2⟩) ∧
    ((((s.register id t1 now1).2.register id t2 now2).2.applyAll ops).deliveredTo
        (s.register id t1 now1).1 = []) := by
  obtain ⟨hk, hc, hlt, hd⟩ := hWF
  have hWF1 : ((s.register id t1 now1).2).WF := register_WF ⟨hk, hc, hlt, hd⟩ id t1 now1
  have hWF2 : (((s.register id t1 now1).2).register id t2 now2).2.WF :=
    register_WF hWF1 id t2 now2
  have hc1 : (s.register id t1 now1).1 = s.nextChan := rfl
  have hc2 : ((s.register id t1 now1).2.register id t2 now2).1 = s.nextChan + 1 := rfl
  refine ⟨hWF2.1, ?_, ?_, ?_⟩
  · rw [hc1, hc2]; omega
  · have hpend : ((s.register id t1 now1).2.register id t2 now2).2.pending
        = (id, ⟨s.nextChan + 1, now2 + t2⟩) ::
            (s.register id t1 now1).2.pending.filter (fun p => p.1 != id) := rfl
    rw [hpend, hc2]
    simp [List.lookup]
  · have hck : s.nextChan < ((s.register id t1 now1).2.register id t2 now2).2.nextChan := by
      show s.nextChan < s.nextChan + 1 + 1
      omega
    have hcp : ∀ p ∈ ((s.register id t1 now1).2.register id t2 now2).2.pending,
        p.2.chan ≠ s.nextChan := by
      intro p hp
      have hpend : ((s.register id t1 now1).2.register id t2 now2).2.pending
          = (id, ⟨s.nextChan + 1, now2 + t2⟩) ::
              (s.register id t1 now1).2.pending.filter (fun p => p.1 != id) := rfl
      rw [hpend] at hp
      rcases List.mem_cons.mp hp with h1 | h1
      · subst h1; simp only; omega
      · have hmem1 := List.mem_of_mem_filter h1
        have hkey := List.of_mem_filter h1
        have hpend1 : (s.register id t1 now1).2.pending
            = (id, ⟨s.nextChan, now1 + t1⟩) ::
                s.pending.filter (fun p => p.1 != id) := rfl
        rw [hpend1] at hmem1
        rcases List.mem_cons.mp hmem1 with h2 | h2
        · rw [h2] at hkey; simp at hkey
        · have := hlt p (List.mem_of_mem_filter h2)
          omega
    have htrace := chan_dead_applyAll hck hcp ops
    rw [hc1, htrace]
    have hdel2 : ((s.register id t1 now1).2.register id t2 now2).2.delivered
        = s.delivered := rfl
    show (List.filter (fun d => d.1 == s.nextChan)
        ((s.register id t1 now1).2.register id t2 now2).2.delivered).map
          (fun d => d.2) = []
    rw [hdel2, filter_fst_eq_nil (fun d hd' => Nat.ne_of_lt (hd d hd'))]
    rfl

/-- Claim C10 witness: register id 7 twice on the empty tracker, then
resolve, sweep and bulk-fail; the first receiver (channel 0) never
receives anything. -/
theorem register_overwrites_silently_witness :
    (((((⟨[], 0, []⟩ : TrackerState).register 7 31 0).2.register 7 31 5).2.pending.map
        (fun p => p.1)).Nodup) ∧
    (((⟨[], 0, []⟩ : TrackerState).register 7 31 0).2.register 7 31 5).1
      ≠ ((⟨[], 0, []⟩ : TrackerState).register 7 31 0).1 ∧
    ((((⟨[], 0, []⟩ : TrackerState).register 7 31 0).2.register 7 31 5).2.pending.lookup 7
      = some ⟨(((⟨[], 0, []⟩ : TrackerState).register 7 31 0).2.register 7 31 5).1,
          5 + 31⟩) ∧
    (((((⟨[], 0, []⟩ : TrackerState).register 7 31 0).2.register 7 31 5).2.applyAll
        [TrackerOp.resolve 7 (okResponse 7), TrackerOp.check_timeouts 100,
         TrackerOp.fail_all "killed"]).deliveredTo
        ((⟨[], 0, []⟩ : TrackerState).register 7 31 0).1 = []) :=
  register_overwrites_silently ⟨[], 0, []⟩
    (by refine ⟨by simp, by simp, by simp, by simp⟩) 7 31 31 0 5
    [TrackerOp.resolve 7 (okResponse 7), TrackerOp.check_timeouts 100,
     TrackerOp.fail_all "killed"]

/-- Claim C4: the backoff is 1s for crash count 0 and `min(2^n, 30)`s
for every n ≥ 1; for consecutive crash counts 0..6 the backoffs are
exactly 1, 2, 4, 8, 16, 30, 30 seconds. -/
theorem backoff_formula_and_sequence :
    (∀ n : Nat, backoff_duration (SidecarState.Crashed n)
      = if n = 0 then 1 else min (2 ^ n) 30) ∧
    [0, 1, 2, 3, 4, 5, 6].map (fun n => backoff_duration (SidecarState.Crashed n))
      = [1, 2, 4, 8, 16, 30, 30] := by
  constructor
  · intro n
    by_cases h0 : n = 0
    · subst h0; rfl
    · simp only [backoff_duration, SidecarState.restart_count, h0, if_false]
      by_cases h31 : n ≤ 31
      · rw [min_eq_left h31, MAX_BACKOFF]
      · have h1 : min n 31 = 31 := min_eq_right (by omega)
        have h2 : (30 : Nat) ≤ 2 ^ 31 := by norm_num
        have h3 : (30 : Nat) ≤ 2 ^ n :=
          le_trans h2 (Nat.pow_le_pow_right (by norm_num) (by omega))
        rw [h1, MAX_BACKOFF, min_eq_right h2, min_eq_right h3]
  · decide

/-- A healthy running bridge used by concrete witnesses. -/
def runningBridge : BridgeState :=
  { supState := ⟨SidecarState.Running, false⟩
    child := ⟨true, false⟩
    stdinWriter := ⟨true, false⟩
    stdinWrites := []
    pendingT := ⟨[], 0, []⟩
    lastPong := ⟨some 100, false⟩
    watchdogShutdown := ⟨true, false⟩
    nextReqId := 1 }

/-- A freshly constructed (never spawned) bridge: `SidecarBridge::new`. -/
def stoppedBridge : BridgeState :=
  { supState := ⟨SidecarState.Stopped, false⟩
    child := ⟨false, false⟩
    stdinWriter := ⟨false, false⟩
    stdinWrites := []
    pendingT := ⟨[], 0, []⟩
    lastPong := ⟨none, false⟩
    watchdogShutdown := ⟨false, false⟩
    nextReqId := 1 }

/-- Claim C7: `is_healthy(w)` is false whenever the supervisor state is
not Running; true when Running with no contact ever recorded; and
otherwise true iff the elapsed time since the last contact is strictly
below `w`. -/
theorem is_healthy_characterization (b : BridgeState) (now w : Nat) :
    (b.supState.value ≠ SidecarState.Running → b.is_healthy now w = false) ∧
    (b.supState.value = SidecarState.Running → b.lastPong.value = none →
      b.is_healthy now w = true) ∧
    (∀ last, b.supState.value = SidecarState.Running → b.lastPong.value = some last →
      (b.is_healthy now w = true ↔ now - last < w)) := by
  refine ⟨?_, ?_, ?_⟩
  · intro h
    simp [BridgeState.is_healthy, BridgeState.is_running, MutexCell.lockRecover, h]
  · intro h hl
    simp [BridgeState.is_healthy, BridgeState.is_running, MutexCell.lockRecover, h, hl]
  · intro last h hl
    simp [BridgeState.is_healthy, BridgeState.is_running, MutexCell.lockRecover, h, hl]

/-- Claim C7 witness: a running bridge with last contact at 100 is
healthy at time 150 with a 90s window, and a stopped bridge is not. -/
theorem is_healthy_characterization_witness :
    runningBridge.is_healthy 150 90 = true ∧
    runningBridge.is_healthy 200 90 = false ∧
    stoppedBridge.is_healthy 150 90 = false := by
  refine ⟨?_, ?_, ?_⟩
  · exact ((is_healthy_characterization runningBridge 150 90).2.2 100 rfl rfl).mpr
      (by decide)
  · have h := ((is_healthy_characterization runningBridge 200 90).2.2 100 rfl rfl)
    cases hb : runningBridge.is_healthy 200 90 with
    | false => rfl
    | true => exact absurd (h.mp hb) (by decide)
  · exact (is_healthy_characterization stoppedBridge 150 90).1 (by simp [stoppedBridge])

/-- Claim C6: `send_request` and `send_notification` invoked while the
supervisor state is not Running fail immediately with the "not
running" error and leave the whole bridge state — tracker, stdin log,
request counter — unchanged. -/
theorem not_running_rejects_without_side_effects (b : BridgeState)
    (h : b.supState.value ≠ SidecarState.Running)
    (method : String) (params : Option Json) (now : Nat)
    (recv : Except String DeliveredMsg) :
    b.send_request method params now recv = (Except.error "Sidecar not running", b) ∧
    b.send_notification method params = (Except.error "Sidecar not running", b) := by
  have hrun : b.is_running = false := by
    simp [BridgeState.is_running, MutexCell.lockRecover, h]
  constructor
  · simp [BridgeState.send_request, hrun]
  · simp [BridgeState.send_notification, hrun]

/-- Claim C6 witness: on the never-spawned bridge both calls reject and
change nothing. -/
theorem not_running_rejects_without_side_effects_witness :
    stoppedBridge.send_request "agent:status" none 0
        (Except.ok (Except.ok (okResponse 1)))
      = (Except.error "Sidecar not running", stoppedBridge) ∧
    stoppedBridge.send_notification "agent:configure" none
      = (Except.error "Sidecar not running", stoppedBridge) :=
  not_running_rejects_without_side_effects stoppedBridge (by simp [stoppedBridge])
    "agent:status" none 0 (Except.ok (Except.ok (okResponse 1)))

/-- Claim C5 counterexample: on a running bridge, the single line
written by `send_notification` is a JSON object that DOES carry an
`id` field — `send_notification` builds a `JsonRpcRequest` with the
auto-incremented counter id and merely skips waiting, so the claimed
"no id field" notification envelope is not what is written. -/
theorem notification_line_carries_id_field :
    (runningBridge.send_notification "agent:configure" none).2.stdinWrites
      = [requestJson 1 "agent:configure" none] ∧
    (requestJson 1 "agent:configure" none).getField "id" = some (Json.num 1) ∧
    (requestJson 1 "agent:configure" none).getField "id" ≠ none := by
  exact ⟨rfl, rfl, fun h => Option.noConfusion h⟩

/-- Claim C5 (amended): while Running with stdin available, a
`send_notification(method, params)` call writes exactly one line — the
JSON-RPC *request* envelope with `jsonrpc`, a fresh `id`, `method` and
the optional `params`; the `id` field is present, the call merely does
not await a response. -/
theorem send_notification_writes_request_envelope (b : BridgeState)
    (hrun : b.supState.value = SidecarState.Running)
    (hpoison : b.stdinWriter.poisoned = false)
    (hstdin : b.stdinWriter.value = true)
    (method : String) (params : Option Json) :
    (b.send_notification method params).1 = Except.ok () ∧
    (b.send_notification method params).2.stdinWrites
      = b.stdinWrites ++ [requestJson b.nextReqId method params] ∧
    (requestJson b.nextReqId method params).getField "jsonrpc"
      = some (Json.str "2.0") ∧
    (requestJson b.nextReqId method params).getField "id"
      = some (Json.num (b.nextReqId : Int)) ∧
    (requestJson b.nextReqId method params).getField "method"
      = some (Json.str method) := by
  have hrun' : b.is_running = true := by
    simp [BridgeState.is_running, MutexCell.lockRecover, hrun]
  refine ⟨?_, ?_, rfl, rfl, rfl⟩ <;>
    simp [BridgeState.send_notification, hrun', hpoison, hstdin]

/-- Claim C5 (amended) witness: a concrete notification on the running
bridge. -/
theorem send_notification_writes_request_envelope_witness :
    (runningBridge.send_notification "memory:search" (some (Json.obj
        [("query", Json.str "test")]))).1 = Except.ok () ∧
    (runningBridge.send_notification "memory:search" (some (Json.obj
        [("query", Json.str "test")]))).2.stdinWrites
      = runningBridge.stdinWrites ++ [requestJson runningBridge.nextReqId "memory:search"
          (some (Json.obj [("query", Json.str "test")]))] ∧
    (requestJson runningBridge.nextReqId "memory:search" (some (Json.obj
        [("query", Json.str "test")]))).getField "jsonrpc" = some (Json.str "2.0") ∧
    (requestJson runningBridge.nextReqId "memory:search" (some (Json.obj
        [("query", Json.str "test")]))).getField "id"
      = some (Json.num (runningBridge.nextReqId : Int)) ∧
    (requestJson runningBridge.nextReqId "memory:search" (some (Json.obj
        [("query", Json.str "test")]))).getField "method"
      = some (Json.str "memory:search") :=
  send_notification_writes_request_envelope runningBridge rfl rfl rfl
    "memory:search" (some (Json.obj [("query", Json.str "test")]))

/-- `b` with every mutex's poison flag replaced — the shared state
after arbitrary lock holders panicked; stored values untouched. -/
def setPoisonFlags (b : BridgeState) (sp cp ip lp wp : Bool) : BridgeState :=
  { b with
    supState := ⟨b.supState.value, sp⟩
    child := ⟨b.child.value, cp⟩
    stdinWriter := ⟨b.stdinWriter.value, ip⟩
    lastPong := ⟨b.lastPong.value, lp⟩
    watchdogShutdown := ⟨b.watchdogShutdown.value, wp⟩ }

/-- A running bridge whose stdin-writer mutex was poisoned by a
panicking holder, as staged in the repo test
`send_request_returns_error_on_poisoned_stdin_mutex`. -/
def poisonedStdinBridge : BridgeState :=
  { runningBridge with stdinWriter := ⟨true, true⟩ }

/-- A bridge whose child-handle mutex was poisoned, as staged in the
repo test `kill_returns_error_on_poisoned_child_mutex`. -/
def poisonedChildBridge : BridgeState :=
  { stoppedBridge with child := ⟨false, true⟩ }

/-- Claim C3 counterexample: with the stdin-writer lock poisoned, a
`send_request` on a running bridge returns the lock-acquisition error
to the caller — poisoning IS surfaced, and the repo's own test asserts
exactly this error; likewise `kill` surfaces the child-lock error. -/
theorem poisoned_lock_error_is_surfaced :
    (poisonedStdinBridge.send_request "test:method" none 0
        (Except.ok (Except.ok (okResponse 1)))).1
      = Except.error ("Failed to acquire stdin lock: " ++ poisonMsg) ∧
    (poisonedChildBridge.kill).1
      = Except.error ("Failed to acquire child lock: " ++ poisonMsg) := by
  exact ⟨rfl, rfl⟩

/-- Claim C3 (amended): the supervisor-state, last-pong and
watchdog-shutdown locks are recovered on poisoning — `is_running`,
`is_healthy` and `record_pong` compute from the last-known values and
never error, whatever the poison flags — but the stdin-writer and
child locks are acquired with error propagation: `send_request` and
`send_notification` surface "Failed to acquire stdin lock" when the
stdin-writer lock is poisoned, and `kill` surfaces "Failed to acquire
child lock" when the child lock is poisoned (after already signalling
the watchdog and failing all pending requests). -/
theorem lock_poisoning_recovered_or_surfaced (b : BridgeState)
    (sp cp ip lp wp : Bool) (now w pong : Nat) (method : String)
    (params : Option Json) (recv : Except String DeliveredMsg) :
    ((setPoisonFlags b sp cp ip lp wp).is_running = b.is_running) ∧
    ((setPoisonFlags b sp cp ip lp wp).is_healthy now w = b.is_healthy now w) ∧
    ((b.record_pong pong).lastPong.value = some pong) ∧
    (b.is_running = true → b.stdinWriter.poisoned = true →
      (b.send_request method params now recv).1
        = Except.error ("Failed to acquire stdin lock: " ++ poisonMsg) ∧
      (b.send_notification method params).1
        = Except.error ("Failed to acquire stdin lock: " ++ poisonMsg)) ∧
    (b.child.poisoned = true →
      (b.kill).1 = Except.error ("Failed to acquire child lock: " ++ poisonMsg) ∧
      (b.kill).2.pendingT = b.pendingT.fail_all "Sidecar process killed" ∧
      (b.kill).2.watchdogShutdown.value = false) := by
  refine ⟨rfl, rfl, rfl, ?_, ?_⟩
  · intro hrun hp
    constructor
    · simp [BridgeState.send_request, hrun, hp]
    · simp [BridgeState.send_notification, hrun, hp]
  · intro hcp
    refine ⟨?_, ?_, ?_⟩ <;> simp [BridgeState.kill, hcp]

/-- Claim C3 (amended) witness: concrete poisoned bridges exercising
both the recovering and the propagating paths. -/
theorem lock_poisoning_recovered_or_surfaced_witness :
    ((setPoisonFlags poisonedStdinBridge true true true true true).is_running
      = poisonedStdinBridge.is_running) ∧
    ((setPoisonFlags poisonedStdinBridge true true true true true).is_healthy 150 90
      = poisonedStdinBridge.is_healthy 150 90) ∧
    ((poisonedStdinBridge.record_pong 160).lastPong.value = some 160) ∧
    (poisonedStdinBridge.is_running = true →
      poisonedStdinBridge.stdinWriter.poisoned = true →
      (poisonedStdinBridge.send_request "test:method" none 0
          (Except.ok (Except.ok (okResponse 1)))).1
        = Except.error ("Failed to acquire stdin lock: " ++ poisonMsg) ∧
      (poisonedStdinBridge.send_notification "test:method" none).1
        = Except.error ("Failed to acquire stdin lock: " ++ poisonMsg)) ∧
    (poisonedStdinBridge.child.poisoned = true →
      (poisonedStdinBridge.kill).1
        = Except.error ("Failed to acquire child lock: " ++ poisonMsg) ∧
      (poisonedStdinBridge.kill).2.pendingT
        = poisonedStdinBridge.pendingT.fail_all "Sidecar process killed" ∧
      (poisonedStdinBridge.kill).2.watchdogShutdown.value = false) :=
  lock_poisoning_recovered_or_surfaced poisonedStdinBridge true true true true true
    150 90 160 "test:method" none (Except.ok (Except.ok (okResponse 1)))

/-- The stdout line `{"jsonrpc":"2.0","id":7,"method":"ping"}` — a JSON
object carrying BOTH a numeric id and a method. -/
def lineWithIdAndMethod : Json :=
  Json.obj [("jsonrpc", Json.str "2.0"), ("id", Json.num 7), ("method", Json.str "ping")]

/-- Claim C2 counterexample: the claim says a line with both an `id`
and a `method` is logged and discarded without affecting the tracker;
the reader instead checks the numeric id FIRST, parses the line as a
response (serde ignores the extra `method` field) and resolves the
tracker — with id 7 pending, the entry is consumed and delivered. -/
theorem line_with_id_and_method_resolves :
    classifyLine (some lineWithIdAndMethod)
      = ReadAction.resolveResponse 7 ⟨"2.0", 7, none, none⟩ ∧
    classifyLine (some lineWithIdAndMethod) ≠ ReadAction.discardMalformed ∧
    (applyReadAction (classifyLine (some lineWithIdAndMethod))
        (⟨[(7, ⟨0, 31⟩)], 1, []⟩ : TrackerState)).pending = [] ∧
    (applyReadAction (classifyLine (some lineWithIdAndMethod))
        (⟨[(7, ⟨0, 31⟩)], 1, []⟩ : TrackerState)).pending
      ≠ (⟨[(7, ⟨0, 31⟩)], 1, []⟩ : TrackerState).pending ∧
    (applyReadAction (classifyLine (some lineWithIdAndMethod))
        (⟨[(7, ⟨0, 31⟩)], 1, []⟩ : TrackerState)).delivered
      = [(0, Except.ok ⟨"2.0", 7, none, none⟩)] := by
  refine ⟨rfl, fun h => ReadAction.noConfusion h, rfl, by decide, rfl⟩

/-- Claim C2 (amended): a non-JSON line is discarded; a line whose
object yields a numeric id (`get("id").as_u64()`) is treated as a
response — resolved against the tracker when it parses as a response
envelope, whether or not a `method` field is also present, and
discarded with a log otherwise; a line with no numeric id but a string
`method` is routed to the notification router with its `params`; any
other line is discarded.  Notification and discarded lines leave the
tracker untouched, and no line terminates the reader loop. -/
theorem stdout_line_classification (j : Json) (t : TrackerState) :
    (classifyLine none = ReadAction.discardMalformed) ∧
    (∀ id, (j.getField "id").bind Json.asU64 = some id →
      (∀ resp, parseJsonRpcResponse j = some resp →
        classifyLine (some j) = ReadAction.resolveResponse id resp) ∧
      (parseJsonRpcResponse j = none →
        classifyLine (some j) = ReadAction.discardMalformed)) ∧
    ((j.getField "id").bind Json.asU64 = none →
      (∀ m, (j.getField "method").bind Json.asStr = some m →
        classifyLine (some j)
          = ReadAction.routeNotification m (j.getField "params")) ∧
      ((j.getField "method").bind Json.asStr = none →
        classifyLine (some j) = ReadAction.discardMalformed)) ∧
    (∀ m p, applyReadAction (ReadAction.routeNotification m p) t = t) ∧
    (applyReadAction ReadAction.discardMalformed t = t) := by
  refine ⟨rfl, ?_, ?_, fun m p => rfl, rfl⟩
  · intro id hid
    constructor
    · intro resp hresp
      simp [classifyLine, hid, hresp]
    · intro hresp
      simp [classifyLine, hid, hresp]
  · intro hid
    constructor
    · intro m hm
      simp [classifyLine, hid, hm]
    · intro hm
      simp [classifyLine, hid, hm]

/-- Claim C2 (amended) witness: a response line with both fields
resolves; a notification line `{"jsonrpc":"2.0","method":"data:tick",
"params":{...}}` routes; `{"id":5}` (numeric id, not a response
envelope) and `{"foo":1}` are discarded. -/
theorem stdout_line_classification_witness :
    classifyLine (some lineWithIdAndMethod)
      = ReadAction.resolveResponse 7 ⟨"2.0", 7, none, none⟩ ∧
    classifyLine (some (Json.obj [("jsonrpc", Json.str "2.0"),
        ("method", Json.str "data:tick"), ("params", Json.obj [("v", Json.num 1)])]))
      = ReadAction.routeNotification "data:tick" (some (Json.obj [("v", Json.num 1)])) ∧
    classifyLine (some (Json.obj [("id", Json.num 5)]))
      = ReadAction.discardMalformed ∧
    classifyLine (some (Json.obj [("foo", Json.num 1)]))
      = ReadAction.discardMalformed ∧
    classifyLine none = ReadAction.discardMalformed := by
  refine ⟨?_, ?_, ?_, ?_, ?_⟩
  · exact ((stdout_line_classification lineWithIdAndMethod ⟨[], 0, []⟩).2.1 7 rfl).1
      ⟨"2.0", 7, none, none⟩ rfl
  · exact ((stdout_line_classification (Json.obj [("jsonrpc", Json.str "2.0"),
        ("method", Json.str "data:tick"), ("params", Json.obj [("v", Json.num 1)])])
        ⟨[], 0, []⟩).2.2.1 rfl).1 "data:tick" rfl
  · exact ((stdout_line_classification (Json.obj [("id", Json.num 5)])
        ⟨[], 0, []⟩).2.1 5 rfl).2 rfl
  · exact ((stdout_line_classification (Json.obj [("foo", Json.num 1)])
        ⟨[], 0, []⟩).2.2.1 rfl).2 rfl
  · exact (stdout_line_classification (Json.obj []) ⟨[], 0, []⟩).1

end Finwatch
